import Mathlib

/-!
Verification of the Streamlit front-end `streamlit_app.py` of the
Movie-Recommendation-System repository.

The file shallowly embeds the pure logic of the app: network calls are
modelled by explicit outcome values (success / non-2xx response / exception),
Python dicts by association lists or `Option`-valued structures, and Python
strings by Lean `String`s.
-/

namespace MovieRec

/-- Model of Python's `s.startswith(pre)`. -/
def py_startswith (s pre : String) : Bool :=
  pre.data.isPrefixOf s.data

/-- The TMDB image base used by `fetch_poster`
(`https://image.tmdb.org/t/p/w500`). -/
def IMAGE_BASE : String := "https://image.tmdb.org/t/p/w500"

/-- The placeholder poster URL returned by `fetch_poster` when no usable
path is given. -/
def PLACEHOLDER : String := "https://via.placeholder.com/500x750?text=No+Poster"

/-- Embedding of `fetch_poster` (streamlit_app.py:119-124).
`none` models Python `None` (absent path); Python string truthiness is
non-emptiness.

    if poster_path and not poster_path.startswith("http"):
        return f"https://image.tmdb.org/t/p/w500{poster_path}"
    return "https://via.placeholder.com/500x750?text=No+Poster"
-/
def fetch_poster : Option String → String
  | some p => if !p.data.isEmpty && !(py_startswith p "http") then IMAGE_BASE ++ p else PLACEHOLDER
  | none => PLACEHOLDER

/-- A chat message as stored in `st.session_state.chat_history`: a Python dict
with keys "role" and "content"; `extra` models any further keys such a dict
could carry. -/
structure Msg where
  role : String
  content : String
  extra : List (String × String) := []
deriving DecidableEq

/-- The message shape rebuilt by the payload comprehension: only "role" and
"content" survive. -/
structure PayloadMsg where
  role : String
  content : String
deriving DecidableEq

/-- Model of Python's `l[-6:]` slice: the last 6 elements (all of them when the
list is shorter). -/
def py_last6 (l : List α) : List α := l.drop (l.length - 6)

/-- Embedding of the chat payload construction (streamlit_app.py:923-924):

    recent_msgs = st.session_state.chat_history[-6:]
    clean_msgs = [{"role": m["role"], "content": m["content"]}
                  for m in recent_msgs if m["role"] != "system"]
-/
def clean_msgs (chat_history : List Msg) : List PayloadMsg :=
  let recent_msgs := py_last6 chat_history
  (recent_msgs.filter (fun m => m.role != "system")).map (fun m => ⟨m.role, m.content⟩)

/-- The payload as the claim describes it: the last 6 entries with every
message whose role is neither "user" nor "assistant" removed. -/
def claim_payload (chat_history : List Msg) : List PayloadMsg :=
  ((py_last6 chat_history).filter
    (fun m => m.role == "user" || m.role == "assistant")).map (fun m => ⟨m.role, m.content⟩)

/-- The amended payload, written independently of the code: keep the last 6
entries (expressed via reverse/take/reverse) and drop exactly the messages
whose role is "system". -/
def amended_payload (chat_history : List Msg) : List PayloadMsg :=
  ((chat_history.reverse.take 6).reverse.filter
    (fun m => !(m.role == "system"))).map (fun m => ⟨m.role, m.content⟩)

/-- Outcome of the POST to the chat endpoint: 2xx response with reply text,
non-2xx response, or a raised exception with message `e`. -/
inductive ChatNet where
  | ok (content : String)
  | bad
  | exn (e : String)

/-- Embedding of one chat turn (streamlit_app.py:915-935): the user prompt is
appended to the history, the request is made, and on success the assistant
reply is appended; on a non-2xx response or an exception an error message is
shown instead. Returns the new history and the error shown (if any). -/
def chat_turn (history : List Msg) (prompt : String) (net : ChatNet) :
    List Msg × Option String :=
  let h1 := history ++ [⟨"user", prompt, []⟩]
  match net with
  | .ok content => (h1 ++ [⟨"assistant", content, []⟩], none)
  | .bad => (h1, some "AI Brain Offline.")
  | .exn e => (h1, some ("Error: " ++ e))

/-- Outcome of one `requests.get` on the health endpoint: 2xx response
(`r.ok`), non-2xx response, or a raised `RequestException`. -/
inductive Probe where
  | ok
  | bad
  | exn
deriving DecidableEq

/-- An observable side effect of `wake_up_backend`: an HTTP request with its
timeout (seconds) and outcome, or a `time.sleep` of the given seconds. -/
inductive Event where
  | request (timeout : Nat) (outcome : Probe)
  | sleep (secs : Nat)
deriving DecidableEq

/-- Embedding of the `for _ in range(30)` retry loop of `wake_up_backend`
(streamlit_app.py:197-204): probe `i` is attempt number `i` of the whole run;
each loop request uses a 5s timeout; on `r.ok` it returns `True`; on a non-2xx
response it just continues; on an exception it sleeps 2s and continues.
Returns the result together with the trace of events. -/
def retry_loop (outcomes : Nat → Probe) : Nat → Nat → Bool × List Event
  | _, 0 => (false, [])
  | i, n + 1 =>
    match outcomes i with
    | .ok => (true, [.request 5 .ok])
    | .bad =>
      let r := retry_loop outcomes (i + 1) n
      (r.1, .request 5 .bad :: r.2)
    | .exn =>
      let r := retry_loop outcomes (i + 1) n
      (r.1, .request 5 .exn :: .sleep 2 :: r.2)

/-- Embedding of `wake_up_backend` (streamlit_app.py:181-206): a fast health
probe at 2s timeout returning `True` on `r.ok` (exceptions pass silently,
without sleeping); otherwise the 30-iteration retry loop. `outcomes i` is the
outcome the backend would give to the i-th request issued. -/
def wake_up_backend (outcomes : Nat → Probe) : Bool × List Event :=
  match outcomes 0 with
  | .ok => (true, [.request 2 .ok])
  | o =>
    let r := retry_loop outcomes 1 30
    (r.1, .request 2 o :: r.2)

/-- The retry loop as the claim describes it: up to `n` attempts at 5s timeout
each, "sleeping 2s between failed attempts" — a 2s sleep after every failed
attempt that is followed by another one. -/
def claim_retry_loop (outcomes : Nat → Probe) : Nat → Nat → Bool × List Event
  | _, 0 => (false, [])
  | i, n + 1 =>
    match outcomes i with
    | .ok => (true, [.request 5 .ok])
    | o =>
      let r := claim_retry_loop outcomes (i + 1) n
      (r.1, .request 5 o :: (if n = 0 then [] else [Event.sleep 2]) ++ r.2)

/-- The wake-up routine as the claim describes it: fast 2s probe, then the
claim's retry loop. -/
def claim_wake_up (outcomes : Nat → Probe) : Bool × List Event :=
  match outcomes 0 with
  | .ok => (true, [.request 2 .ok])
  | o =>
    let r := claim_retry_loop outcomes 1 30
    (r.1, .request 2 o :: r.2)

/-- Is the event a request that failed with an exception? -/
def isExnRequest : Event → Bool
  | .request _ .exn => true
  | _ => false

/-- Is the event a request at all? -/
def isRequest : Event → Bool
  | .request _ _ => true
  | _ => false

/-- One cast entry of the credits response: a dict with a "name" key. -/
structure CastEntry where
  name : String
deriving DecidableEq

/-- One crew entry of the credits response: a "name" key and an optional
"job" key (read with `c.get("job")`, which yields `None` when absent). -/
structure CrewEntry where
  name : String
  job : Option String
deriving DecidableEq

/-- Parsed body of the `/credits` endpoint. -/
structure CreditsData where
  cast : List CastEntry
  crew : List CrewEntry
deriving DecidableEq

/-- The dict returned by `fetch_credits`. -/
structure Credits where
  cast : String
  director : String
deriving DecidableEq

/-- Embedding of `fetch_credits` (streamlit_app.py:141-155). `none` models any
fetch failure (`RequestException`, `KeyError`, `TypeError`).

    cast = [c["name"] for c in data.get("cast", [])[:3]]
    director = next((c["name"] for c in data.get("crew", [])
                     if c.get("job") == "Director"), "Unknown")
    return {"cast": ", ".join(cast), "director": director}
-/
def fetch_credits : Option CreditsData → Credits
  | none => ⟨"N/A", "N/A"⟩
  | some d =>
    let cast := (d.cast.take 3).map (·.name)
    let director :=
      ((d.crew.find? (fun c => c.job == some "Director")).map (·.name)).getD "Unknown"
    ⟨String.intercalate ", " cast, director⟩

/-- A movie record as delivered by the backend (only the fields the claims
need). -/
structure Movie where
  id : Nat
  title : String
deriving DecidableEq

/-- Outcome of the GET on the `/search` endpoint. -/
inductive SearchNet where
  | ok (body : List Movie)
  | bad
  | exn

/-- What one call of `search_movies` produces. -/
structure SearchResult where
  results : List Movie
  error_shown : Bool
  network_calls : Nat
deriving DecidableEq

/-- Embedding of `search_movies` (streamlit_app.py:212-224): when the
backend-readiness flag is unset it shows an error and returns `[]` without
issuing a request; otherwise one request is made; a 2xx response yields its
body, a non-2xx response yields `[]` silently, and an exception shows an
error and yields `[]`. -/
def search_movies (backend_ready : Bool) (net : SearchNet) : SearchResult :=
  if !backend_ready then ⟨[], true, 0⟩
  else
    match net with
    | .ok body => ⟨body, false, 1⟩
    | .bad => ⟨[], false, 1⟩
    | .exn => ⟨[], true, 1⟩

/-- One provider entry of a "flatrate" list. -/
structure Provider where
  provider_name : String
deriving DecidableEq

/-- One region's entry in the providers "results" dict: it may or may not
have a "flatrate" key. -/
structure RegionEntry where
  flatrate : Option (List Provider)
deriving DecidableEq

/-- Parsed body of the `/watch/providers` endpoint: the "results" dict,
keyed by region code. -/
structure WPData where
  results : List (String × RegionEntry)

/-- Model of Python's `d.get(k, default)` for a dict with string keys. -/
def py_dict_get (m : List (String × α)) (k : String) (default : α) : α :=
  (m.lookup k).getD default

/-- Embedding of `fetch_watch_providers` (streamlit_app.py:158-177). `none`
models any fetch failure.

    results = data.get("results", {})
    providers = results.get("IN",results.get("US", {}))
    flatrate = providers.get("flatrate", [])
    return flatrate
-/
def fetch_watch_providers : Option WPData → List Provider
  | none => []
  | some d =>
    let results := d.results
    let providers := py_dict_get results "IN" (py_dict_get results "US" ⟨none⟩)
    let flatrate := providers.flatrate.getD []
    flatrate

/-- Model of Python's `int()` on a number: truncation toward zero. Floats are
idealised as rationals. -/
def py_int_trunc (q : ℚ) : ℤ :=
  if 0 ≤ q then ⌊q⌋ else ⌈q⌉

/-- Embedding of the displayed match percentage
(`int(similarity * 100)`, streamlit_app.py:368 and
`int(rec.get("similarity_score", 0) * 100)`, streamlit_app.py:878). -/
def match_pct (similarity : ℚ) : ℤ :=
  py_int_trunc (similarity * 100)

/-- The top-level function names defined in streamlit_app.py (every `def` of
the module), against which a call resolves at run time. -/
def defined_functions : List String :=
  ["fetch_trailer", "fetch_poster", "fetch_tmdb_details", "fetch_credits",
   "fetch_watch_providers", "wake_up_backend", "search_movies",
   "get_recommendations", "display_fullscreen_video", "display_movie_card",
   "format_option", "go_home", "go_search", "go_chat", "fetch_trending_movies"]

/-- The session-state fields the dialog logic touches. -/
structure SessionState where
  page : String
  show_dialog : Bool
  selected_rec : Option Movie
deriving DecidableEq

/-- Effect of the Details button handler (streamlit_app.py:888-890):

    st.session_state.selected_rec = rec
    st.session_state.show_dialog = True
-/
def details_click (s : SessionState) (r : Movie) : SessionState :=
  { s with selected_rec := some r, show_dialog := true }

/-- Result of running the end-of-script dialog code: either a new session
state or a raised `NameError` for an unresolvable name. -/
inductive RunResult where
  | ok (s : SessionState)
  | nameError (missing : String)
deriving DecidableEq

/-- Embedding of the end-of-script dialog logic (streamlit_app.py:938-941):

    if st.session_state.get("show_dialog") and st.session_state.get("selected_rec"):
        show_movie_dialog(st.session_state.selected_rec)
        st.session_state.show_dialog = False

The call first resolves the name `show_movie_dialog` against the module's
defined functions; an unresolvable name raises `NameError`. -/
def dialog_epilogue (s : SessionState) : RunResult :=
  if s.show_dialog && s.selected_rec.isSome then
    if "show_movie_dialog" ∈ defined_functions then
      RunResult.ok { s with show_dialog := false }
    else
      RunResult.nameError "show_movie_dialog"
  else
    RunResult.ok s

lemma py_startswith_image_base_append (s : String) :
    py_startswith (IMAGE_BASE ++ s) "http" = true := by
  simp only [py_startswith, IMAGE_BASE, String.data_append]
  show List.isPrefixOf ('h' :: 't' :: 't' :: 'p' :: []) _ = true
  simp [List.isPrefixOf]

lemma fetch_poster_output_http (p : Option String) :
    py_startswith (fetch_poster p) "http" = true := by
  match p with
  | none => decide
  | some s =>
    simp only [fetch_poster]
    by_cases h : (!s.data.isEmpty && !(py_startswith s "http")) = true
    · rw [if_pos h]; exact py_startswith_image_base_append s
    · rw [if_neg h]; decide

lemma fetch_poster_output_nonempty (p : Option String) :
    (fetch_poster p).data.isEmpty = false := by
  match p with
  | none => decide
  | some s =>
    simp only [fetch_poster]
    by_cases h : (!s.data.isEmpty && !(py_startswith s "http")) = true
    · rw [if_pos h]
      simp [IMAGE_BASE, String.data_append]
    · rw [if_neg h]; decide

lemma data_isEmpty_false_of_ne (p : String) (h : p ≠ "") : p.data.isEmpty = false := by
  cases hp : p.data with
  | nil => exact absurd (String.ext (by simp [hp])) h
  | cons a l => simp [hp]

/-- C1, counterexample: the claim says an already-absolute URL (starting with a
scheme) passes through `fetch_poster` unchanged, but the code maps it to the
placeholder instead. -/
theorem C1_fetch_poster_absolute_not_passthrough :
    fetch_poster (some "https://example.com/p.jpg") ≠ "https://example.com/p.jpg"
    ∧ fetch_poster (some "https://example.com/p.jpg") = PLACEHOLDER := by
  constructor <;> decide

/-- C1 (amended): `fetch_poster` prefixes the image base onto a non-empty path
not starting with "http", returns the placeholder when the path is empty or
absent, and also returns the placeholder (rather than passing through) for a
path that already starts with "http"; in particular it never double-prefixes. -/
theorem C1_fetch_poster_amended (p : String) :
    (p ≠ "" → py_startswith p "http" = false → fetch_poster (some p) = IMAGE_BASE ++ p)
    ∧ (py_startswith p "http" = true → fetch_poster (some p) = PLACEHOLDER)
    ∧ fetch_poster (some "") = PLACEHOLDER
    ∧ fetch_poster none = PLACEHOLDER := by
  refine ⟨fun hne hpre => ?_, fun hpre => ?_, by decide, rfl⟩
  · simp [fetch_poster, data_isEmpty_false_of_ne p hne, hpre]
  · simp [fetch_poster, hpre]

theorem C1_fetch_poster_amended_witness :
    fetch_poster (some "/abc.jpg") = IMAGE_BASE ++ "/abc.jpg"
    ∧ fetch_poster (some "http://example.com/p.jpg") = PLACEHOLDER :=
  ⟨(C1_fetch_poster_amended "/abc.jpg").1 (by decide) (by decide),
   (C1_fetch_poster_amended "http://example.com/p.jpg").2.1 (by decide)⟩

/-- C10: applying `fetch_poster` twice always yields the placeholder, for every
input (absent, empty, relative or absolute), because every output of
`fetch_poster` starts with "http" and every non-empty input starting with
"http" is mapped to the placeholder. -/
theorem C10_fetch_poster_twice_placeholder (p : Option String) :
    fetch_poster (some (fetch_poster p)) = PLACEHOLDER := by
  have h1 := fetch_poster_output_http p
  have h2 := fetch_poster_output_nonempty p
  show (if !(fetch_poster p).data.isEmpty && !(py_startswith (fetch_poster p) "http") then
      IMAGE_BASE ++ fetch_poster p else PLACEHOLDER) = PLACEHOLDER
  rw [h1, h2]
  simp

lemma retry_loop_true_iff (o : Nat → Probe) (i n : Nat) :
    (retry_loop o i n).1 = true ↔ ∃ k, k < n ∧ o (i + k) = Probe.ok := by
  induction n generalizing i with
  | zero => simp [retry_loop]
  | succ n ih =>
    cases ho : o i with
    | ok =>
      simp only [retry_loop, ho]
      exact ⟨fun _ => ⟨0, Nat.succ_pos n, by simpa using ho⟩, fun _ => trivial⟩
    | bad =>
      simp only [retry_loop, ho]
      rw [ih (i + 1)]
      constructor
      · rintro ⟨k, hk, hok⟩
        refine ⟨k + 1, by omega, ?_⟩
        have he : i + (k + 1) = i + 1 + k := by omega
        rw [he]; exact hok
      · rintro ⟨k, hk, hok⟩
        cases k with
        | zero => rw [Nat.add_zero] at hok; rw [ho] at hok; exact absurd hok (by simp)
        | succ k =>
          refine ⟨k, by omega, ?_⟩
          have he : i + 1 + k = i + (k + 1) := by omega
          rw [he]; exact hok
    | exn =>
      simp only [retry_loop, ho]
      rw [ih (i + 1)]
      constructor
      · rintro ⟨k, hk, hok⟩
        refine ⟨k + 1, by omega, ?_⟩
        have he : i + (k + 1) = i + 1 + k := by omega
        rw [he]; exact hok
      · rintro ⟨k, hk, hok⟩
        cases k with
        | zero => rw [Nat.add_zero] at hok; rw [ho] at hok; exact absurd hok (by simp)
        | succ k =>
          refine ⟨k, by omega, ?_⟩
          have he : i + 1 + k = i + (k + 1) := by omega
          rw [he]; exact hok

lemma retry_loop_timeouts (o : Nat → Probe) (i n t : Nat) (s : Probe)
    (h : Event.request t s ∈ (retry_loop o i n).2) : t = 5 := by
  induction n generalizing i with
  | zero => simp [retry_loop] at h
  | succ n ih =>
    cases ho : o i <;> simp only [retry_loop, ho] at h
    · rw [List.mem_singleton] at h
      exact (Event.request.injEq _ _ _ _).mp h |>.1
    · rcases List.mem_cons.mp h with h1 | h2
      · exact (Event.request.injEq _ _ _ _).mp h1 |>.1
      · exact ih (i + 1) h2
    · rcases List.mem_cons.mp h with h1 | h2
      · exact (Event.request.injEq _ _ _ _).mp h1 |>.1
      · rcases List.mem_cons.mp h2 with h3 | h4
        · exact absurd h3 (by simp)
        · exact ih (i + 1) h4

lemma retry_loop_sleep_count (o : Nat → Probe) (i n : Nat) :
    ((retry_loop o i n).2.filter isExnRequest).length
      = (retry_loop o i n).2.count (Event.sleep 2) := by
  induction n generalizing i with
  | zero => rfl
  | succ n ih =>
    cases ho : o i <;> simp only [retry_loop, ho]
    · rfl
    · simp only [List.filter, isExnRequest, List.count_cons]
      simpa using ih (i + 1)
    · simp only [List.filter, isExnRequest, List.count_cons]
      simp only [List.length_cons]
      rw [ih (i + 1)]
      simp [List.count_cons]

lemma retry_loop_request_count_le (o : Nat → Probe) (i n : Nat) :
    ((retry_loop o i n).2.filter isRequest).length ≤ n := by
  induction n generalizing i with
  | zero => simp [retry_loop]
  | succ n ih =>
    cases ho : o i <;> simp only [retry_loop, ho] <;>
      simp only [List.filter, isRequest, List.length_cons]
    · simp
    · simpa using Nat.succ_le_succ (ih (i + 1))
    · simpa using Nat.succ_le_succ (ih (i + 1))

/-- C3, counterexample: when every probe gets a non-2xx response, the routine
performs all 31 failed requests without ever sleeping, so "sleeping 2s between
failed attempts" is false; the claim's model of the routine disagrees with the
code's on this input. -/
theorem C3_wake_up_no_sleep_on_bad_responses :
    (wake_up_backend (fun _ => Probe.bad)).1 = false
    ∧ Event.sleep 2 ∉ (wake_up_backend (fun _ => Probe.bad)).2
    ∧ ((wake_up_backend (fun _ => Probe.bad)).2.filter isRequest).length = 31
    ∧ Event.sleep 2 ∈ (claim_wake_up (fun _ => Probe.bad)).2
    ∧ wake_up_backend (fun _ => Probe.bad) ≠ claim_wake_up (fun _ => Probe.bad) := by
  refine ⟨?_, ?_, ?_, ?_, ?_⟩ <;> decide

/-- C3 (amended): the wake-up routine first issues one health probe at 2s
timeout and returns true if it succeeds; otherwise it performs up to 30
further attempts at 5s timeout each, sleeping 2s after each attempt that
fails with a connection exception (it does not sleep after a non-2xx
response), returning true on the first successful probe and false after
exhausting all attempts. Stated as: success iff some of the at most 31 probes
succeeds; the first request uses the 2s timeout and all later ones 5s; the 2s
sleeps are in bijection with the exception-failed retry attempts; at most 31
requests are issued. -/
theorem C3_wake_up_backend_amended (o : Nat → Probe) :
    ((wake_up_backend o).1 = true ↔ ∃ i, i ≤ 30 ∧ o i = Probe.ok)
    ∧ (wake_up_backend o).2.head? = some (Event.request 2 (o 0))
    ∧ (∀ t s, Event.request t s ∈ (wake_up_backend o).2.tail → t = 5)
    ∧ ((wake_up_backend o).2.tail.filter isExnRequest).length
        = (wake_up_backend o).2.count (Event.sleep 2)
    ∧ ((wake_up_backend o).2.filter isRequest).length ≤ 31 := by
  cases ho : o 0 with
  | ok =>
    refine ⟨⟨fun _ => ⟨0, by omega, ho⟩, fun _ => ?_⟩, ?_, ?_, ?_, ?_⟩
    · simp [wake_up_backend, ho]
    · simp [wake_up_backend, ho]
    · intro t s hmem
      simp [wake_up_backend, ho] at hmem
    · simp [wake_up_backend, ho, isExnRequest]
    · simp [wake_up_backend, ho, isRequest, List.filter]
  | bad =>
    have hshape : wake_up_backend o
        = ((retry_loop o 1 30).1, Event.request 2 Probe.bad :: (retry_loop o 1 30).2) := by
      simp [wake_up_backend, ho]
    rw [hshape]
    refine ⟨?_, by simp, ?_, ?_, ?_⟩
    · rw [retry_loop_true_iff]
      constructor
      · rintro ⟨k, hk, hok⟩; exact ⟨1 + k, by omega, hok⟩
      · rintro ⟨i, hi, hok⟩
        cases i with
        | zero => rw [ho] at hok; exact absurd hok (by simp)
        | succ i =>
          refine ⟨i, by omega, ?_⟩
          have he : 1 + i = i + 1 := by omega
          rw [he]; exact hok
    · intro t s hmem
      exact retry_loop_timeouts o 1 30 t s hmem
    · show ((retry_loop o 1 30).2.filter isExnRequest).length
        = (Event.request 2 Probe.bad :: (retry_loop o 1 30).2).count (Event.sleep 2)
      rw [retry_loop_sleep_count]
      simp [List.count_cons]
    · show ((Event.request 2 Probe.bad :: (retry_loop o 1 30).2).filter isRequest).length ≤ 31
      simp only [List.filter, isRequest, List.length_cons]
      exact Nat.succ_le_succ (retry_loop_request_count_le o 1 30)
  | exn =>
    have hshape : wake_up_backend o
        = ((retry_loop o 1 30).1, Event.request 2 Probe.exn :: (retry_loop o 1 30).2) := by
      simp [wake_up_backend, ho]
    rw [hshape]
    refine ⟨?_, by simp, ?_, ?_, ?_⟩
    · rw [retry_loop_true_iff]
      constructor
      · rintro ⟨k, hk, hok⟩; exact ⟨1 + k, by omega, hok⟩
      · rintro ⟨i, hi, hok⟩
        cases i with
        | zero => rw [ho] at hok; exact absurd hok (by simp)
        | succ i =>
          refine ⟨i, by omega, ?_⟩
          have he : 1 + i = i + 1 := by omega
          rw [he]; exact hok
    · intro t s hmem
      exact retry_loop_timeouts o 1 30 t s hmem
    · show ((retry_loop o 1 30).2.filter isExnRequest).length
        = (Event.request 2 Probe.exn :: (retry_loop o 1 30).2).count (Event.sleep 2)
      rw [retry_loop_sleep_count]
      simp [List.count_cons]
    · show ((Event.request 2 Probe.exn :: (retry_loop o 1 30).2).filter isRequest).length ≤ 31
      simp only [List.filter, isRequest, List.length_cons]
      exact Nat.succ_le_succ (retry_loop_request_count_le o 1 30)

theorem C3_wake_up_backend_amended_witness :
    (wake_up_backend (fun i => if i = 2 then Probe.ok else Probe.bad)).1 = true
    ∧ (wake_up_backend (fun i => if i = 2 then Probe.ok else Probe.bad)).2.head?
        = some (Event.request 2 Probe.bad) :=
  ⟨((C3_wake_up_backend_amended (fun i => if i = 2 then Probe.ok else Probe.bad)).1).mpr
      ⟨2, by decide, by decide⟩,
   (C3_wake_up_backend_amended (fun i => if i = 2 then Probe.ok else Probe.bad)).2.1⟩

/-- C2, counterexample: the claim says every message whose role is neither
"user" nor "assistant" is removed from the payload, but the code only removes
role "system": a message with role "tool" in the last 6 entries is kept. -/
theorem C2_clean_msgs_keeps_tool_role :
    clean_msgs [⟨"user", "a", []⟩, ⟨"tool", "t", []⟩, ⟨"assistant", "b", []⟩]
      ≠ claim_payload [⟨"user", "a", []⟩, ⟨"tool", "t", []⟩, ⟨"assistant", "b", []⟩]
    ∧ (⟨"tool", "t"⟩ : PayloadMsg) ∈
      clean_msgs [⟨"user", "a", []⟩, ⟨"tool", "t", []⟩, ⟨"assistant", "b", []⟩] := by
  constructor <;> decide

/-- C2 (amended): the payload sent to the chat endpoint consists of exactly the
last 6 transcript entries with every message whose role is "system" removed
(roles other than "user"/"assistant"/"system" are kept), preserving order. -/
theorem C2_clean_msgs_amended (h : List Msg) : clean_msgs h = amended_payload h := by
  unfold clean_msgs amended_payload py_last6
  rw [show h.drop (h.length - 6) = h.rtake 6 from rfl, List.rtake_eq_reverse_take_reverse]
  rfl

/-- C7: when the chat request fails (non-2xx response or exception), an error
message is surfaced and the history gains only the already-appended user
prompt: no assistant message is appended for the failed attempt. -/
theorem C7_chat_failure_no_assistant_append (h : List Msg) (p : String) (net : ChatNet)
    (hfail : ∀ c, net ≠ ChatNet.ok c) :
    (chat_turn h p net).1 = h ++ [⟨"user", p, []⟩] ∧ (chat_turn h p net).2.isSome := by
  cases net with
  | ok c => exact absurd rfl (hfail c)
  | bad => exact ⟨rfl, rfl⟩
  | exn e => exact ⟨rfl, rfl⟩

theorem C7_chat_failure_no_assistant_append_witness :
    (chat_turn [] "hi" ChatNet.bad).1 = [] ++ [⟨"user", "hi", []⟩]
    ∧ (chat_turn [] "hi" ChatNet.bad).2.isSome :=
  C7_chat_failure_no_assistant_append [] "hi" ChatNet.bad (fun _ h => ChatNet.noConfusion h)

/-- C4: `fetch_credits` returns the comma-join of the first 3 cast names in
original order; the director is the name of the first crew entry whose job is
"Director", and "Unknown" when no such entry exists; on fetch failure it
returns cast "N/A" and director "N/A", which differs from the "Unknown"
default. -/
theorem C4_fetch_credits_spec (d : CreditsData) :
    (fetch_credits (some d)).cast
        = String.intercalate ", " ((d.cast.map CastEntry.name).take 3)
    ∧ ((∀ c ∈ d.crew, c.job ≠ some "Director") →
        (fetch_credits (some d)).director = "Unknown")
    ∧ (∀ l1 c l2, d.crew = l1 ++ c :: l2 → c.job = some "Director" →
        (∀ c2 ∈ l1, c2.job ≠ some "Director") →
        (fetch_credits (some d)).director = c.name)
    ∧ fetch_credits none = ⟨"N/A", "N/A"⟩
    ∧ (fetch_credits none).director ≠ "Unknown" := by
  refine ⟨?_, ?_, ?_, rfl, by decide⟩
  · simp [fetch_credits, List.map_take]
  · intro hnone
    have hfind : d.crew.find? (fun c => c.job == some "Director") = none := by
      rw [List.find?_eq_none]
      intro c hc
      simpa using hnone c hc
    simp [fetch_credits, hfind]
  · intro l1 c l2 hsplit hc hnone
    have hfind1 : l1.find? (fun c => c.job == some "Director") = none := by
      rw [List.find?_eq_none]
      intro x hx
      simpa using hnone x hx
    have hfind : d.crew.find? (fun c => c.job == some "Director") = some c := by
      rw [hsplit, List.find?_append, hfind1, List.find?_cons_of_pos _ (by simpa using hc)]
      rfl
    simp [fetch_credits, hfind]

theorem C4_fetch_credits_spec_witness :
    (fetch_credits (some ⟨[⟨"A"⟩, ⟨"B"⟩, ⟨"C"⟩, ⟨"D"⟩], [⟨"W", some "Writer"⟩]⟩)).director
        = "Unknown"
    ∧ (fetch_credits (some ⟨[], [⟨"W", some "Writer"⟩, ⟨"S", some "Director"⟩,
        ⟨"T", some "Director"⟩]⟩)).director = "S" :=
  ⟨(C4_fetch_credits_spec ⟨[⟨"A"⟩, ⟨"B"⟩, ⟨"C"⟩, ⟨"D"⟩], [⟨"W", some "Writer"⟩]⟩).2.1
      (by decide),
   (C4_fetch_credits_spec ⟨[], [⟨"W", some "Writer"⟩, ⟨"S", some "Director"⟩,
        ⟨"T", some "Director"⟩]⟩).2.2.1
      [⟨"W", some "Writer"⟩] ⟨"S", some "Director"⟩ [⟨"T", some "Director"⟩]
      rfl rfl (by decide)⟩

/-- C5: when the backend-readiness flag is unset, `search_movies` returns the
empty list, shows a user-visible error, and makes no network call, whatever
the network would have answered. -/
theorem C5_search_movies_short_circuit (net : SearchNet) :
    search_movies false net = ⟨[], true, 0⟩ := rfl

/-- C6: `fetch_watch_providers` selects the "IN" region entry, falls back to
"US" when "IN" is absent, and to the empty dict when both are absent; it
returns the "flatrate" list of the selected entry (empty when the key is
absent) and the empty list on fetch failure. -/
theorem C6_fetch_watch_providers_spec (d : WPData) :
    (∀ r, d.results.lookup "IN" = some r →
        fetch_watch_providers (some d) = r.flatrate.getD [])
    ∧ (d.results.lookup "IN" = none → ∀ r, d.results.lookup "US" = some r →
        fetch_watch_providers (some d) = r.flatrate.getD [])
    ∧ (d.results.lookup "IN" = none → d.results.lookup "US" = none →
        fetch_watch_providers (some d) = [])
    ∧ fetch_watch_providers none = [] := by
  refine ⟨?_, ?_, ?_, rfl⟩
  · intro r hin
    simp [fetch_watch_providers, py_dict_get, hin]
  · intro hin r hus
    simp [fetch_watch_providers, py_dict_get, hin, hus]
  · intro hin hus
    simp [fetch_watch_providers, py_dict_get, hin, hus]

theorem C6_fetch_watch_providers_spec_witness :
    fetch_watch_providers (some ⟨[("US", ⟨some [⟨"Hulu"⟩]⟩), ("IN", ⟨some [⟨"Netflix"⟩]⟩)]⟩)
        = [⟨"Netflix"⟩]
    ∧ fetch_watch_providers (some ⟨[("US", ⟨some [⟨"Hulu"⟩]⟩)]⟩) = [⟨"Hulu"⟩]
    ∧ fetch_watch_providers (some ⟨[("FR", ⟨some [⟨"Canal"⟩]⟩)]⟩) = [] :=
  ⟨(C6_fetch_watch_providers_spec
      ⟨[("US", ⟨some [⟨"Hulu"⟩]⟩), ("IN", ⟨some [⟨"Netflix"⟩]⟩)]⟩).1 ⟨some [⟨"Netflix"⟩]⟩
      (by decide),
   (C6_fetch_watch_providers_spec ⟨[("US", ⟨some [⟨"Hulu"⟩]⟩)]⟩).2.1 (by decide)
      ⟨some [⟨"Hulu"⟩]⟩ (by decide),
   (C6_fetch_watch_providers_spec ⟨[("FR", ⟨some [⟨"Canal"⟩]⟩)]⟩).2.2.1 (by decide)
      (by decide)⟩

/-- C8: for every similarity score in [0,1] the displayed match percentage is
the floor of similarity times 100 (truncation toward zero agrees with floor on
non-negative values). -/
theorem C8_match_pct_floor (s : ℚ) (h0 : 0 ≤ s) (h1 : s ≤ 1) :
    match_pct s = ⌊s * 100⌋ ∧ (0 : ℤ) ≤ match_pct s ∧ match_pct s ≤ 100 := by
  have hpos : (0 : ℚ) ≤ s * 100 := by positivity
  have heq : match_pct s = ⌊s * 100⌋ := by
    unfold match_pct py_int_trunc
    rw [if_pos hpos]
  refine ⟨heq, ?_, ?_⟩
  · rw [heq]
    exact Int.floor_nonneg.mpr hpos
  · rw [heq]
    have : s * 100 ≤ 100 := by nlinarith
    calc ⌊s * 100⌋ ≤ ⌊(100 : ℚ)⌋ := Int.floor_le_floor this
      _ = 100 := by norm_num

theorem C8_match_pct_floor_witness :
    match_pct (873 / 1000 : ℚ) = 87 := by
  rw [(C8_match_pct_floor (873 / 1000 : ℚ) (by norm_num) (by norm_num)).1]
  rw [show (873 / 1000 : ℚ) * 100 = 873 / 10 by norm_num]
  rw [Int.floor_eq_iff]
  norm_num

/-- C9: after the reachable Details-button interaction (which sets
`show_dialog` and `selected_rec`), the end-of-script dialog code calls
`show_movie_dialog`, a name defined nowhere in the module, so the script
raises `NameError` instead of displaying the dialog. -/
theorem C9_details_click_name_error (s : SessionState) (r : Movie) :
    dialog_epilogue (details_click s r) = RunResult.nameError "show_movie_dialog" := by
  have hmem : "show_movie_dialog" ∉ defined_functions := by decide
  simp [dialog_epilogue, details_click, hmem]

end MovieRec
